import Mathlib

/-!
Verification of the session-context synchronization and recovery subsystem
of the quantfident repository.

Server side (src/lib/services/session-service.ts): the Prisma tables
`UserSession`, `SessionContext` and `SessionSnapshot` are modelled as lists
of rows; `findUnique` becomes `List.find?`, `update where id` becomes a
keyed map over the rows, `create` appends a row with a fresh primary key
drawn from a counter.  JSON payloads (`contextData`, `snapshotData`) are
modelled by an inductive JSON value type; a JavaScript object is an ordered
association list of fields, property lookup returns the first matching
field, and the spread merge `{...base, ...upd}` is `mergeShallow`.
Timestamps are naturals (epoch milliseconds); `new Date()` becomes an
explicit `now` argument.  Auto-maintained columns (`updatedAt`) and the
`prisma` availability guard are not modelled; fallible operations return
`Except String`.

Client side (src/lib/client/session-storage.ts, src/hooks/useSessionRecovery.ts):
localStorage and IndexedDB are modelled as association lists; a stored JSON
string is modelled by the payload it parses back to (JSON.stringify/parse
round-trips on these values).  Failure of a storage tier is an explicit
boolean input.  The hook's `initializeSession` is modelled as a function
from the outcome of each awaited step to the resulting controller state.
-/

namespace Quantfident

mutual
/-- A JSON value, as stored in a session context or snapshot payload
(`contextData`/`snapshotData` are Prisma `Json` columns, `unknown` in TS). -/
inductive JsonValue where
  | null
  | bool (b : Bool)
  | num (n : Int)
  | str (s : String)
  | arr (elems : JsonArray)
  | obj (fields : JsonObject)
deriving DecidableEq, Repr

/-- A JSON array (spine of nested values). -/
inductive JsonArray where
  | nil
  | cons (head : JsonValue) (tail : JsonArray)
deriving DecidableEq, Repr

/-- A nested JSON object (opaque to the shallow operations modelled here). -/
inductive JsonObject where
  | nil
  | cons (key : String) (value : JsonValue) (tail : JsonObject)
deriving DecidableEq, Repr
end

/-- A top-level JSON object payload: the ordered fields of a JS object
(`SessionContextData` in the source). -/
abbrev Payload := List (String × JsonValue)

/-- Property access `p[k]`: the value of the first field named `k`, if any. -/
def lookupKey (p : Payload) (k : String) : Option JsonValue :=
  (p.find? (fun f => f.1 == k)).map (·.2)

/-- The JS spread merge `{...base, ...upd}` (session-service.ts line 184):
fields of `base` in order, each overwritten by `upd` when `upd` also has the
key, followed by the fields of `upd` whose keys are new. -/
def mergeShallow (base upd : Payload) : Payload :=
  base.map (fun f =>
    match lookupKey upd f.1 with
    | some v => (f.1, v)
    | none => f)
  ++ upd.filter (fun f => (lookupKey base f.1).isNone)

/-! Generic association-list lemmas used throughout. -/

theorem eqFalseOfNotTrue {b : Bool} (h : ¬ b = true) : b = false := by
  cases b
  · rfl
  · exact absurd rfl h

theorem find?_map_of_mem {α : Type} (l : List α) (g : α → α) (p : α → Bool)
    (hp : ∀ x ∈ l, p (g x) = p x) :
    (l.map g).find? p = (l.find? p).map g := by
  induction l with
  | nil => rfl
  | cons a t ih =>
    have ha := hp a (List.mem_cons_self a t)
    by_cases h : p a = true
    · simp [List.find?_cons, ha, h]
    · have h' : p a = false := eqFalseOfNotTrue h
      simp only [List.map_cons, List.find?_cons, ha, h']
      exact ih (fun x hx => hp x (List.mem_cons_of_mem a hx))

theorem find?_filter_of_imp {α : Type} (l : List α) (p q : α → Bool)
    (h : ∀ a ∈ l, p a = true → q a = true) :
    (l.filter q).find? p = l.find? p := by
  induction l with
  | nil => rfl
  | cons a t ih =>
    have ih' := ih (fun x hx => h x (List.mem_cons_of_mem a hx))
    by_cases hq : q a = true
    · by_cases hpa : p a = true
      · simp [List.filter_cons, hq, List.find?_cons, hpa]
      · have hpa' : p a = false := eqFalseOfNotTrue hpa
        simp [List.filter_cons, hq, List.find?_cons, hpa', ih']
    · have hq' : q a = false := eqFalseOfNotTrue hq
      have hpa' : p a = false := by
        cases hpq : p a
        · rfl
        · exact absurd (h a (List.mem_cons_self a t) hpq) (by simp [hq'])
      simp [List.filter_cons, hq', List.find?_cons, hpa', ih']

theorem find?_filter_of_none {α : Type} (l : List α) (p q : α → Bool)
    (h : l.find? p = none) : (l.filter q).find? p = none := by
  rw [List.find?_eq_none] at h ⊢
  exact fun x hx => h x (List.mem_of_mem_filter hx)

/-- In a list whose keys are pairwise distinct, searching for the key of a
member finds exactly that member. -/
theorem find?_key_of_mem {α κ : Type} [BEq κ] [LawfulBEq κ] (key : α → κ)
    (l : List α) (hnd : (l.map key).Nodup) {a : α} (ha : a ∈ l) :
    l.find? (fun x => key x == key a) = some a := by
  induction l with
  | nil => exact absurd ha (List.not_mem_nil a)
  | cons x t ih =>
    rw [List.map_cons, List.nodup_cons] at hnd
    by_cases hx : (key x == key a) = true
    · have hxa : key x = key a := eq_of_beq hx
      have : a = x := by
        rcases List.mem_cons.mp ha with h | h
        · exact h
        · exact absurd (hxa ▸ List.mem_map_of_mem key h) hnd.1
      simp [List.find?_cons, hx, this]
    · have hx' : (key x == key a) = false := eqFalseOfNotTrue hx
      have hat : a ∈ t := by
        rcases List.mem_cons.mp ha with h | h
        · subst h
          simp at hx'
        · exact h
      simp [List.find?_cons, hx', ih hnd.2 hat]

theorem lookupKey_def (p : Payload) (k : String) :
    lookupKey p k = (p.find? (fun f => f.1 == k)).map (·.2) := rfl

/-- The defining property of the shallow merge: a key resolves to the update's
value when the update has it, and to the base's value otherwise. -/
theorem lookupKey_mergeShallow (base upd : Payload) (k : String) :
    lookupKey (mergeShallow base upd) k =
      ((lookupKey upd k).or (lookupKey base k)) := by
  have hmap : ((base.map (fun f =>
      match lookupKey upd f.1 with
      | some v => (f.1, v)
      | none => f)).find? (fun f => f.1 == k)) =
      ((base.find? (fun f => f.1 == k)).map (fun f =>
        match lookupKey upd f.1 with
        | some v => (f.1, v)
        | none => f)) :=
    find?_map_of_mem _ _ _ (by intro x _; cases h : lookupKey upd x.1 <;> simp [h])
  have hres : lookupKey (mergeShallow base upd) k =
      (((base.find? (fun f => f.1 == k)).map (fun f =>
        match lookupKey upd f.1 with
        | some v => (f.1, v)
        | none => f)).or ((upd.filter (fun f => (lookupKey base f.1).isNone)).find?
          (fun f => f.1 == k))).map (·.2) := by
    show ((mergeShallow base upd).find? (fun f => f.1 == k)).map (·.2) = _
    unfold mergeShallow
    rw [List.find?_append, hmap]
  rw [hres]
  cases hb : base.find? (fun f => f.1 == k) with
  | some fb =>
    have hbk : fb.1 = k := by
      have h1 := List.find?_some hb
      simp only [beq_iff_eq] at h1
      exact h1
    cases hu : upd.find? (fun f => f.1 == k) with
    | some fu =>
      rw [lookupKey_def upd k, lookupKey_def base k, hu, hb]
      simp only [Option.map_some', Option.or_some]
      rw [hbk, lookupKey_def upd k, hu]
      simp
    | none =>
      rw [lookupKey_def upd k, lookupKey_def base k, hu, hb]
      simp only [Option.map_some', Option.or_some, Option.map_none', Option.none_or]
      rw [hbk, lookupKey_def upd k, hu]
      simp
  | none =>
    have hbase_none : lookupKey base k = none := by rw [lookupKey_def, hb]; rfl
    cases hu : upd.find? (fun f => f.1 == k) with
    | some fu =>
      have hfilt : ((upd.filter (fun f => (lookupKey base f.1).isNone)).find?
          (fun f => f.1 == k)) = upd.find? (fun f => f.1 == k) := by
        apply find?_filter_of_imp
        intro a _ hpa
        simp only [beq_iff_eq] at hpa
        rw [hpa, hbase_none]
        rfl
      rw [lookupKey_def upd k, hu, hbase_none, hfilt, hu]
      simp only [Option.map_none', Option.none_or, Option.map_some', Option.or_some]
    | none =>
      have hfilt : ((upd.filter (fun f => (lookupKey base f.1).isNone)).find?
          (fun f => f.1 == k)) = none :=
        find?_filter_of_none _ _ _ hu
      rw [lookupKey_def upd k, hu, hbase_none, hfilt]
      simp

/-- A shallow merge never loses a key of the base object. -/
theorem lookupKey_mergeShallow_isSome (base upd : Payload) (k : String)
    (h : (lookupKey base k).isSome = true) :
    (lookupKey (mergeShallow base upd) k).isSome = true := by
  rw [lookupKey_mergeShallow]
  cases hu : lookupKey upd k <;> cases hb : lookupKey base k <;>
    simp_all [Option.or]

/-! ## Server Session Registry (src/lib/services/session-service.ts)

One row per record of the Prisma tables.  Row ids (`@id @default(cuid())`)
are modelled as naturals drawn from a per-database counter `nextId`;
timestamps are epoch milliseconds. -/

/-- A `UserSession` row: one authenticated browser context. -/
structure UserSession where
  userId : String
  sessionId : String
  deviceName : Option String := none
  deviceType : Option String := none
  ipAddress : Option String := none
  userAgent : Option String := none
  isActive : Bool := true
  lastActivityAt : Nat := 0
  createdAt : Nat := 0
  expiresAt : Nat
deriving DecidableEq, Repr

/-- A `SessionContext` row: the mutable key-value state of one session
(`sessionId` is `@unique`; the auto column `updatedAt` is not modelled). -/
structure SessionContext where
  id : Nat
  userId : String
  sessionId : String
  contextData : Payload
deriving DecidableEq, Repr

/-- A `SessionSnapshot` row: an immutable timestamped copy of a context
payload. -/
structure SessionSnapshot where
  id : Nat
  userId : String
  sessionId : Option String
  snapshotData : Payload
  snapshotName : Option String
  createdAt : Nat
  expiresAt : Nat
  isManual : Bool
  source : String
deriving DecidableEq, Repr

/-- The server-side store: the three session tables plus the id supply. -/
structure DB where
  sessions : List UserSession
  contexts : List SessionContext
  snapshots : List SessionSnapshot
  nextId : Nat
deriving Repr

/-- Well-formedness guaranteed by the schema: `sessionId` is `@unique` on
`UserSession` and `SessionContext`, primary keys are unique and below the
id supply, and every context belongs to an existing session
(`SessionContext` is the relation side of `UserSession.context`, and a
context is removed when its session is purged). -/
def DB.Wf (db : DB) : Prop :=
  (db.sessions.map (·.sessionId)).Nodup
  ∧ (db.contexts.map (·.id)).Nodup
  ∧ (db.contexts.map (·.sessionId)).Nodup
  ∧ (∀ c ∈ db.contexts, c.id < db.nextId)
  ∧ (db.snapshots.map (·.id)).Nodup
  ∧ (∀ s ∈ db.snapshots, s.id < db.nextId)
  ∧ (∀ c ∈ db.contexts, ∃ s ∈ db.sessions, s.sessionId = c.sessionId)

instance (db : DB) : Decidable db.Wf := by
  unfold DB.Wf
  infer_instance

/-- `prisma.userSession.findUnique({ where: { sessionId } })`. -/
def findSession (db : DB) (sessionId : String) : Option UserSession :=
  db.sessions.find? (fun s => s.sessionId == sessionId)

/-- `prisma.sessionContext.findUnique({ where: { sessionId } })`. -/
def findContext (db : DB) (sessionId : String) : Option SessionContext :=
  db.contexts.find? (fun c => c.sessionId == sessionId)

/-- `SessionService.updateSessionContext(sessionId, contextData)`
(session-service.ts lines 153-195): throws `Session not found` when no
session row has the token; creates the context row with `contextData` when
absent; otherwise stores the spread merge of the existing data with
`contextData`, updating the row keyed by its primary id. -/
def updateSessionContext (db : DB) (sessionId : String) (contextData : Payload) :
    DB × Except String SessionContext :=
  match findSession db sessionId with
  | none => (db, Except.error "Session not found")
  | some session =>
    match findContext db sessionId with
    | none =>
      let context : SessionContext :=
        { id := db.nextId, userId := session.userId, sessionId := sessionId,
          contextData := contextData }
      ({ db with contexts := db.contexts ++ [context], nextId := db.nextId + 1 },
       Except.ok context)
    | some context =>
      let mergedData := mergeShallow context.contextData contextData
      let context' : SessionContext := { context with contextData := mergedData }
      ({ db with contexts :=
          db.contexts.map (fun c => if c.id == context.id then context' else c) },
       Except.ok context')

/-- `SessionService.getSessionContext(sessionId)` (lines 200-210). -/
def getSessionContext (db : DB) (sessionId : String) : Option SessionContext :=
  findContext db sessionId

/-- `SessionService.getUserActiveSessions(userId)` (lines 55-77): active,
non-expired sessions of the user, newest activity first (the `include`
join with the context rows is recovered through `findContext`). -/
def getUserActiveSessions (db : DB) (userId : String) (now : Nat) : List UserSession :=
  (db.sessions.filter (fun s =>
    s.userId == userId && s.isActive && decide (now < s.expiresAt))).mergeSort
    (fun a b => decide (b.lastActivityAt ≤ a.lastActivityAt))

/-- Thirty days in milliseconds: the snapshot expiry default
(`now() + interval '30 days'`). -/
def thirtyDaysMs : Nat := 30 * 24 * 60 * 60 * 1000

/-- `SessionService.createSessionSnapshot(userId, sessionId, snapshotData,
snapshotName)` (lines 215-237): inserts a snapshot row; `isManual` and
`source` are derived from whether a name was supplied. -/
def createSessionSnapshot (db : DB) (userId : String) (sessionId : Option String)
    (snapshotData : Payload) (snapshotName : Option String) (now : Nat) :
    DB × SessionSnapshot :=
  let snapshot : SessionSnapshot :=
    { id := db.nextId, userId := userId, sessionId := sessionId,
      snapshotData := snapshotData, snapshotName := snapshotName,
      createdAt := now, expiresAt := now + thirtyDaysMs,
      isManual := snapshotName.isSome,
      source := if snapshotName.isSome then "manual" else "auto" }
  ({ db with snapshots := db.snapshots ++ [snapshot], nextId := db.nextId + 1 },
   snapshot)

/-- The value returned by `restoreFromSnapshot`. -/
structure RestoreResult where
  snapshotData : Payload
  createdAt : Nat
  snapshotName : Option String
deriving DecidableEq, Repr

/-- `SessionService.restoreFromSnapshot(snapshotId, userId)` (lines 269-287):
reads the snapshot row; throws unless it exists and belongs to the caller;
returns data, creation time and name; performs no write (the returned
database is the input one). -/
def restoreFromSnapshot (db : DB) (snapshotId : Nat) (userId : String) :
    DB × Except String RestoreResult :=
  match db.snapshots.find? (fun s => s.id == snapshotId) with
  | none => (db, Except.error "Snapshot not found or unauthorized")
  | some snapshot =>
    if snapshot.userId == userId then
      (db, Except.ok { snapshotData := snapshot.snapshotData,
                       createdAt := snapshot.createdAt,
                       snapshotName := snapshot.snapshotName })
    else
      (db, Except.error "Snapshot not found or unauthorized")

/-- Rendering of `new Date().toISOString()`: an injective textual stamp of
the clock value. -/
def isoTimestamp (now : Nat) : String := toString now

/-- The object literal `{ [contextKey]: contextValue, sharedAt: ... }`
(lines 367-370); built as a spread so that a user key named `sharedAt` is
overwritten by the later field, as in JS. -/
def sharedPayload (contextKey : String) (contextValue : JsonValue) (now : Nat) : Payload :=
  mergeShallow [(contextKey, contextValue)]
    [("sharedAt", JsonValue.str (isoTimestamp now))]

/-- One arm of the `Promise.all(sessions.map(...))` fan-out: an independent
`updateSessionContext` call whose failure is recorded in the flag but whose
database effects do not depend on the other arms. -/
def fanOutStep (shared : Payload) (acc : DB × Bool) (sessionId : String) : DB × Bool :=
  match updateSessionContext acc.1 sessionId shared with
  | (db', Except.ok _) => (db', acc.2)
  | (db', Except.error _) => (db', false)

/-- The fan-out over a list of session tokens; the flag is `false` when any
arm failed (in which case the `Promise.all` rejects, after the other arms
have still run). -/
def fanOut (db : DB) (sessionIds : List String) (shared : Payload) : DB × Bool :=
  sessionIds.foldl (fanOutStep shared) (db, true)

/-- `SessionService.shareContextAcrossSessions(userId, contextKey,
contextValue)` (lines 348-379): lists the user's sessions with
`isActive: true` (no expiry condition), then updates each one's context
with the shared payload. -/
def shareContextAcrossSessions (db : DB) (userId : String) (contextKey : String)
    (contextValue : JsonValue) (now : Nat) :
    DB × Except String (List UserSession) :=
  let sessions := db.sessions.filter (fun s => s.userId == userId && s.isActive)
  let sharedContextData := sharedPayload contextKey contextValue now
  let result := fanOut db (sessions.map (·.sessionId)) sharedContextData
  (result.1, if result.2 then Except.ok sessions else Except.error "Session not found")

/-- The stored context data of a token's session, at one key. -/
def lookupContextData (db : DB) (sessionId : String) (k : String) : Option JsonValue :=
  match findContext db sessionId with
  | some c => lookupKey c.contextData k
  | none => none

/-- Context data after one fan-out arm reaches a session: merged over the
existing data, or exactly the shared payload when the context is created. -/
def newContextData (old : Option Payload) (shared : Payload) : Payload :=
  match old with
  | some d => mergeShallow d shared
  | none => shared

/-! Structural lemmas about a single `updateSessionContext` call. -/

/-- The replacement applied to the context table in the merge branch. -/
def replaceRow (c : SessionContext) (p : Payload) (x : SessionContext) : SessionContext :=
  if x.id == c.id then { c with contextData := mergeShallow c.contextData p } else x

/-- The context row inserted by the create branch. -/
def createdRow (db : DB) (sid userId : String) (p : Payload) : SessionContext :=
  { id := db.nextId, userId := userId, sessionId := sid, contextData := p }

theorem updateSessionContext_eq_create (db : DB) (sid : String) (p : Payload)
    (s : UserSession) (hs : findSession db sid = some s)
    (hc : findContext db sid = none) :
    updateSessionContext db sid p =
      ({ db with
          contexts := db.contexts ++ [createdRow db sid s.userId p],
          nextId := db.nextId + 1 },
       Except.ok (createdRow db sid s.userId p)) := by
  unfold updateSessionContext createdRow
  rw [hs, hc]

theorem updateSessionContext_eq_merge (db : DB) (sid : String) (p : Payload)
    (s : UserSession) (hs : findSession db sid = some s)
    (c : SessionContext) (hc : findContext db sid = some c) :
    updateSessionContext db sid p =
      ({ db with contexts := db.contexts.map (replaceRow c p) },
       Except.ok { c with contextData := mergeShallow c.contextData p }) := by
  unfold updateSessionContext replaceRow
  rw [hs, hc]

theorem updateSessionContext_noSession (db : DB) (sid : String) (p : Payload)
    (hs : findSession db sid = none) :
    updateSessionContext db sid p = (db, Except.error "Session not found") := by
  unfold updateSessionContext
  rw [hs]

theorem updateSessionContext_sessions (db : DB) (sid : String) (p : Payload) :
    (updateSessionContext db sid p).1.sessions = db.sessions := by
  cases hs : findSession db sid with
  | none => rw [updateSessionContext_noSession db sid p hs]
  | some s =>
    cases hc : findContext db sid with
    | none => rw [updateSessionContext_eq_create db sid p s hs hc]
    | some c => rw [updateSessionContext_eq_merge db sid p s hs c hc]

theorem updateSessionContext_snapshots (db : DB) (sid : String) (p : Payload) :
    (updateSessionContext db sid p).1.snapshots = db.snapshots := by
  cases hs : findSession db sid with
  | none => rw [updateSessionContext_noSession db sid p hs]
  | some s =>
    cases hc : findContext db sid with
    | none => rw [updateSessionContext_eq_create db sid p s hs hc]
    | some c => rw [updateSessionContext_eq_merge db sid p s hs c hc]

theorem replaceRow_keys (db : DB) (hwf : db.Wf) (c : SessionContext)
    (hcmem : c ∈ db.contexts) (p : Payload) :
    ∀ x ∈ db.contexts, (replaceRow c p x).id = x.id
      ∧ (replaceRow c p x).sessionId = x.sessionId := by
  intro x hx
  unfold replaceRow
  by_cases hid : (x.id == c.id) = true
  · have hxc : x = c := List.inj_on_of_nodup_map hwf.2.1 hx hcmem (eq_of_beq hid)
    simp [hid, hxc]
  · simp [eqFalseOfNotTrue hid]

/-- Replacing the row keyed by an existing context's primary id commutes
with a search by session token, because ids are unique and the replacement
keeps the token. -/
theorem find?_map_replaceRow (db : DB) (hwf : db.Wf) (c : SessionContext)
    (hcmem : c ∈ db.contexts) (p : Payload) (t : String) :
    ((db.contexts.map (replaceRow c p)).find?
      (fun x : SessionContext => x.sessionId == t)) =
    ((db.contexts.find? (fun x : SessionContext => x.sessionId == t)).map
      (replaceRow c p)) := by
  apply find?_map_of_mem
  intro x hx
  rw [(replaceRow_keys db hwf c hcmem p x hx).2]

theorem updateSessionContext_findContext_other (db : DB) (hwf : db.Wf)
    (sid t : String) (hne : t ≠ sid) (p : Payload) :
    findContext (updateSessionContext db sid p).1 t = findContext db t := by
  cases hs : findSession db sid with
  | none => rw [updateSessionContext_noSession db sid p hs]
  | some s =>
    cases hc : findContext db sid with
    | none =>
      rw [updateSessionContext_eq_create db sid p s hs hc]
      unfold findContext
      rw [List.find?_append]
      have hsidt : (sid == t) = false := by
        cases hb : sid == t
        · rfl
        · exact absurd (eq_of_beq hb).symm hne
      have hf : (([createdRow db sid s.userId p]).find?
          (fun x : SessionContext => x.sessionId == t)) = none := by
        simp [List.find?_cons, createdRow, hsidt]
      rw [hf]
      cases db.contexts.find? (fun x : SessionContext => x.sessionId == t) <;> rfl
    | some c =>
      have hcmem : c ∈ db.contexts := List.mem_of_find?_eq_some hc
      have hcsid : c.sessionId = sid := by
        have h1 := List.find?_some hc
        simp only [beq_iff_eq] at h1
        exact h1
      rw [updateSessionContext_eq_merge db sid p s hs c hc]
      unfold findContext
      rw [find?_map_replaceRow db hwf c hcmem p t]
      cases hf : db.contexts.find? (fun x : SessionContext => x.sessionId == t) with
      | none => rfl
      | some x =>
        have hxt : x.sessionId = t := by
          have h1 := List.find?_some hf
          simp only [beq_iff_eq] at h1
          exact h1
        have hid : (x.id == c.id) = false := by
          cases hb : x.id == c.id
          · rfl
          · have hxc : x = c := List.inj_on_of_nodup_map hwf.2.1
              (List.mem_of_find?_eq_some hf) hcmem (eq_of_beq hb)
            rw [hxc] at hxt
            exact absurd hxt.symm (hcsid ▸ hne)
        simp [replaceRow, hid]

theorem updateSessionContext_existing (db : DB) (hwf : db.Wf) (sid : String)
    (p : Payload) (s : UserSession) (hs : findSession db sid = some s)
    (c : SessionContext) (hc : findContext db sid = some c) :
    (updateSessionContext db sid p).2 =
        Except.ok { c with contextData := mergeShallow c.contextData p }
    ∧ findContext (updateSessionContext db sid p).1 sid =
        some { c with contextData := mergeShallow c.contextData p } := by
  have hcmem : c ∈ db.contexts := List.mem_of_find?_eq_some hc
  rw [updateSessionContext_eq_merge db sid p s hs c hc]
  refine ⟨rfl, ?_⟩
  unfold findContext
  rw [find?_map_replaceRow db hwf c hcmem p sid]
  unfold findContext at hc
  rw [hc]
  simp [replaceRow]

theorem updateSessionContext_create (db : DB) (sid : String) (p : Payload)
    (s : UserSession) (hs : findSession db sid = some s)
    (hc : findContext db sid = none) :
    (updateSessionContext db sid p).2 = Except.ok (createdRow db sid s.userId p)
    ∧ findContext (updateSessionContext db sid p).1 sid =
        some (createdRow db sid s.userId p) := by
  rw [updateSessionContext_eq_create db sid p s hs hc]
  refine ⟨rfl, ?_⟩
  unfold findContext
  rw [List.find?_append]
  unfold findContext at hc
  rw [hc]
  simp [List.find?_cons, createdRow]

theorem updateSessionContext_wf (db : DB) (hwf : db.Wf) (sid : String) (p : Payload) :
    (updateSessionContext db sid p).1.Wf := by
  cases hs : findSession db sid with
  | none =>
    rw [updateSessionContext_noSession db sid p hs]
    exact hwf
  | some s =>
    obtain ⟨h1, h2, h3, h4, h5, h6, h7⟩ := hwf
    cases hc : findContext db sid with
    | none =>
      rw [updateSessionContext_eq_create db sid p s hs hc]
      dsimp only
      have hsidfree : ∀ x ∈ db.contexts, x.sessionId ≠ sid := by
        intro x hx hxs
        have := List.find?_eq_none.mp hc x hx
        simp [hxs] at this
      refine ⟨h1, ?_, ?_, ?_, h5, ?_, ?_⟩
      · rw [List.map_append, List.nodup_append]
        refine ⟨h2, List.nodup_singleton _, ?_⟩
        intro a ha hb
        rcases List.mem_map.mp ha with ⟨x, hx, hxa⟩
        have hlt := h4 x hx
        have hab : a = db.nextId := List.mem_singleton.mp hb
        omega
      · rw [List.map_append, List.nodup_append]
        refine ⟨h3, List.nodup_singleton _, ?_⟩
        intro a ha hb
        rcases List.mem_map.mp ha with ⟨x, hx, hxa⟩
        have hab : a = sid := List.mem_singleton.mp hb
        exact hsidfree x hx (by rw [hxa, hab])
      · intro x hx
        rcases List.mem_append.mp hx with h | h
        · exact Nat.lt_succ_of_lt (h4 x h)
        · rw [List.mem_singleton.mp h]
          exact Nat.lt_succ_self db.nextId
      · intro x hx
        exact Nat.lt_succ_of_lt (h6 x hx)
      · intro x hx
        rcases List.mem_append.mp hx with h | h
        · exact h7 x h
        · refine ⟨s, List.mem_of_find?_eq_some hs, ?_⟩
          have h1s : s.sessionId = sid := by
            have := List.find?_some hs
            simp only [beq_iff_eq] at this
            exact this
          rw [List.mem_singleton.mp h, h1s]
          simp [createdRow]
    | some c =>
      have hcmem : c ∈ db.contexts := List.mem_of_find?_eq_some hc
      have hg := replaceRow_keys db ⟨h1, h2, h3, h4, h5, h6, h7⟩ c hcmem p
      rw [updateSessionContext_eq_merge db sid p s hs c hc]
      dsimp only
      refine ⟨h1, ?_, ?_, ?_, h5, h6, ?_⟩
      · rw [List.map_map]
        have hmc : (db.contexts.map ((fun x : SessionContext => x.id) ∘ replaceRow c p)) =
            db.contexts.map (fun x : SessionContext => x.id) :=
          List.map_congr_left (fun x hx => (hg x hx).1)
        rw [hmc]
        exact h2
      · rw [List.map_map]
        have hmc : (db.contexts.map
            ((fun x : SessionContext => x.sessionId) ∘ replaceRow c p)) =
            db.contexts.map (fun x : SessionContext => x.sessionId) :=
          List.map_congr_left (fun x hx => (hg x hx).2)
        rw [hmc]
        exact h3
      · intro x hx
        rcases List.mem_map.mp hx with ⟨y, hy, hyx⟩
        rw [← hyx, (hg y hy).1]
        exact h4 y hy
      · intro x hx
        rcases List.mem_map.mp hx with ⟨y, hy, hyx⟩
        rw [← hyx, (hg y hy).2]
        exact h7 y hy

/-- A context update never deletes a stored top-level key: if the key is
present before the call, it is present afterwards, whichever branch runs. -/
theorem updateSessionContext_presence (db : DB) (hwf : db.Wf) (sid : String)
    (p : Payload) (t k : String)
    (h : (lookupContextData db t k).isSome = true) :
    (lookupContextData (updateSessionContext db sid p).1 t k).isSome = true := by
  by_cases hts : t = sid
  · subst hts
    cases hs : findSession db t with
    | none => rw [lookupContextData, updateSessionContext_noSession db t p hs]; exact h
    | some s =>
      cases hc : findContext db t with
      | none =>
        rw [lookupContextData, hc] at h
        simp at h
      | some c =>
        rw [lookupContextData, hc] at h
        rw [lookupContextData, (updateSessionContext_existing db hwf t p s hs c hc).2]
        exact lookupKey_mergeShallow_isSome c.contextData p k h
  · rw [lookupContextData, updateSessionContext_findContext_other db hwf sid t hts p]
    exact h

/-! Fold lemmas for the `Promise.all` fan-out. -/

/-- Whether an `Except` result is a success. -/
def exceptOk {ε α : Type} : Except ε α → Bool
  | Except.ok _ => true
  | Except.error _ => false

theorem fanOutStep_fst (shared : Payload) (acc : DB × Bool) (sid : String) :
    (fanOutStep shared acc sid).1 = (updateSessionContext acc.1 sid shared).1 := by
  unfold fanOutStep
  cases h : updateSessionContext acc.1 sid shared with
  | mk db' r => cases r <;> rfl

theorem fanOutStep_snd (shared : Payload) (acc : DB × Bool) (sid : String) :
    (fanOutStep shared acc sid).2 =
      (acc.2 && exceptOk (updateSessionContext acc.1 sid shared).2) := by
  unfold fanOutStep exceptOk
  cases h : updateSessionContext acc.1 sid shared with
  | mk db' r => cases r <;> simp

theorem fanOut_sessions (shared : Payload) (tokens : List String) :
    ∀ acc : DB × Bool,
      (tokens.foldl (fanOutStep shared) acc).1.sessions = acc.1.sessions := by
  induction tokens with
  | nil => intro acc; rfl
  | cons t rest ih =>
    intro acc
    rw [List.foldl_cons, ih (fanOutStep shared acc t), fanOutStep_fst shared acc t,
      updateSessionContext_sessions]

theorem fanOut_snapshots (shared : Payload) (tokens : List String) :
    ∀ acc : DB × Bool,
      (tokens.foldl (fanOutStep shared) acc).1.snapshots = acc.1.snapshots := by
  induction tokens with
  | nil => intro acc; rfl
  | cons t rest ih =>
    intro acc
    rw [List.foldl_cons, ih (fanOutStep shared acc t), fanOutStep_fst shared acc t,
      updateSessionContext_snapshots]

theorem fanOut_wf (shared : Payload) (tokens : List String) :
    ∀ acc : DB × Bool, acc.1.Wf →
      (tokens.foldl (fanOutStep shared) acc).1.Wf := by
  induction tokens with
  | nil => intro acc h; exact h
  | cons t rest ih =>
    intro acc h
    rw [List.foldl_cons]
    apply ih
    rw [fanOutStep_fst]
    exact updateSessionContext_wf acc.1 h t shared

theorem fanOut_findContext_notMem (shared : Payload) (tokens : List String) :
    ∀ acc : DB × Bool, acc.1.Wf → ∀ sid, sid ∉ tokens →
      findContext (tokens.foldl (fanOutStep shared) acc).1 sid =
        findContext acc.1 sid := by
  induction tokens with
  | nil => intro acc _ sid _; rfl
  | cons t rest ih =>
    intro acc hwf sid hnm
    have hne : sid ≠ t := fun h => hnm (h ▸ List.mem_cons_self t rest)
    have hnm' : sid ∉ rest := fun h => hnm (List.mem_cons_of_mem t h)
    have hwf' : (fanOutStep shared acc t).1.Wf := by
      rw [fanOutStep_fst]
      exact updateSessionContext_wf acc.1 hwf t shared
    rw [List.foldl_cons, ih (fanOutStep shared acc t) hwf' sid hnm', fanOutStep_fst]
    exact updateSessionContext_findContext_other acc.1 hwf t sid hne shared

theorem fanOut_findContext_mem (shared : Payload) (tokens : List String) :
    ∀ acc : DB × Bool, acc.1.Wf → tokens.Nodup →
    ∀ sid, sid ∈ tokens → ∀ s, findSession acc.1 sid = some s →
      ((findContext (tokens.foldl (fanOutStep shared) acc).1 sid).map (·.contextData)) =
        some (newContextData ((findContext acc.1 sid).map (·.contextData)) shared) := by
  induction tokens with
  | nil => intro acc _ _ sid hmem; exact absurd hmem (List.not_mem_nil sid)
  | cons t rest ih =>
    intro acc hwf hnd sid hmem s hs
    rw [List.nodup_cons] at hnd
    have hwf' : (fanOutStep shared acc t).1.Wf := by
      rw [fanOutStep_fst]
      exact updateSessionContext_wf acc.1 hwf t shared
    rcases List.mem_cons.mp hmem with heq | hrest
    · subst heq
      rw [List.foldl_cons,
        fanOut_findContext_notMem shared rest (fanOutStep shared acc sid) hwf' sid hnd.1,
        fanOutStep_fst]
      cases hc : findContext acc.1 sid with
      | none =>
        rw [(updateSessionContext_create acc.1 sid shared s hs hc).2]
        rfl
      | some c =>
        rw [(updateSessionContext_existing acc.1 hwf sid shared s hs c hc).2]
        rfl
    · have hne : sid ≠ t := fun h => hnd.1 (h ▸ hrest)
      have hs' : findSession (fanOutStep shared acc t).1 sid = some s := by
        unfold findSession
        rw [fanOutStep_fst, updateSessionContext_sessions]
        exact hs
      have hctx : findContext (fanOutStep shared acc t).1 sid = findContext acc.1 sid := by
        rw [fanOutStep_fst]
        exact updateSessionContext_findContext_other acc.1 hwf t sid hne shared
      rw [List.foldl_cons, ih (fanOutStep shared acc t) hwf' hnd.2 sid hrest s hs', hctx]

theorem fanOut_presence (shared : Payload) (tokens : List String) :
    ∀ acc : DB × Bool, acc.1.Wf → ∀ t k,
      (lookupContextData acc.1 t k).isSome = true →
      (lookupContextData (tokens.foldl (fanOutStep shared) acc).1 t k).isSome = true := by
  induction tokens with
  | nil => intro acc _ t k h; exact h
  | cons u rest ih =>
    intro acc hwf t k h
    have hwf' : (fanOutStep shared acc u).1.Wf := by
      rw [fanOutStep_fst]
      exact updateSessionContext_wf acc.1 hwf u shared
    rw [List.foldl_cons]
    apply ih (fanOutStep shared acc u) hwf' t k
    rw [show lookupContextData (fanOutStep shared acc u).1 t k =
        lookupContextData (updateSessionContext acc.1 u shared).1 t k from by
      rw [fanOutStep_fst]]
    exact updateSessionContext_presence acc.1 hwf u shared t k h

theorem fanOut_flag_false (shared : Payload) (tokens : List String) :
    ∀ acc : DB × Bool, acc.2 = false →
      (tokens.foldl (fanOutStep shared) acc).2 = false := by
  induction tokens with
  | nil => intro acc h; exact h
  | cons t rest ih =>
    intro acc h
    rw [List.foldl_cons]
    apply ih
    rw [fanOutStep_snd, h]
    rfl

theorem fanOut_flag_of_bad (shared : Payload) (tokens : List String) :
    ∀ acc : DB × Bool, (∃ t ∈ tokens, findSession acc.1 t = none) →
      (tokens.foldl (fanOutStep shared) acc).2 = false := by
  induction tokens with
  | nil =>
    intro acc h
    rcases h with ⟨t, hmem, _⟩
    exact absurd hmem (List.not_mem_nil t)
  | cons t rest ih =>
    intro acc h
    rcases h with ⟨u, hmem, hu⟩
    rcases List.mem_cons.mp hmem with heq | hrest
    · subst heq
      rw [List.foldl_cons]
      apply fanOut_flag_false
      rw [fanOutStep_snd, updateSessionContext_noSession acc.1 u shared hu]
      simp [exceptOk]
    · rw [List.foldl_cons]
      apply ih
      refine ⟨u, hrest, ?_⟩
      unfold findSession
      rw [fanOutStep_fst, updateSessionContext_sessions]
      exact hu

/-! ## Client persistence and identity (src/lib/client/session-storage.ts)

localStorage and the IndexedDB object store are association lists from key
to stored value; for JSON-valued entries the stored string is modelled by
the payload it parses back to (`JSON.stringify`/`JSON.parse` round-trip on
these values).  A failing tier is an explicit boolean input; a `true` flag
means every call to that tier throws. -/

def STORAGE_KEY : String := "quantfident_session_data"

def SESSION_ID_KEY : String := "quantfident_session_id"

/-- Key-value store write: overwrite the first entry with the key, else
append (`localStorage.setItem` / IndexedDB `put`). -/
def setEntry {α : Type} : List (String × α) → String → α → List (String × α)
  | [], k, v => [(k, v)]
  | e :: rest, k, v => if e.1 == k then (k, v) :: rest else e :: setEntry rest k v

/-- Key-value store read (`localStorage.getItem` / IndexedDB `get`); a
missing key yields `none` (`null`). -/
def getEntry {α : Type} (store : List (String × α)) (k : String) : Option α :=
  (store.find? (fun e => e.1 == k)).map (·.2)

theorem getEntry_setEntry_self {α : Type} (l : List (String × α)) (k : String) (v : α) :
    getEntry (setEntry l k v) k = some v := by
  induction l with
  | nil => simp [setEntry, getEntry, List.find?_cons]
  | cons e rest ih =>
    by_cases he : (e.1 == k) = true
    · simp [setEntry, getEntry, he, List.find?_cons]
    · have he' := eqFalseOfNotTrue he
      unfold setEntry
      rw [he']
      unfold getEntry at ih ⊢
      simp only [Bool.false_eq_true, if_false, List.find?_cons, he']
      exact ih

/-- `generateClientSessionId()` (session-storage.ts lines 245-247): the
template `client_${Date.now()}_${Math.random().toString(36).substring(2, 9)}`,
with the clock and the random suffix as explicit inputs. -/
def generateClientSessionId (nowMs : Nat) (rand : String) : String :=
  "client_" ++ toString nowMs ++ "_" ++ rand

/-- `getOrCreateSessionId()` (session-storage.ts lines 252-261).
`hasWindow = false` models the SSR guard (returns `""`).  `storageFails`
models a throwing localStorage (storage disabled/blocked): the source calls
`getItem`/`setItem` with no try/catch, so the exception propagates to the
caller.  Otherwise the cached id is returned, or a fresh one is generated
and stored. -/
def getOrCreateSessionId (hasWindow storageFails : Bool)
    (localStorage : List (String × String)) (nowMs : Nat) (rand : String) :
    Except String (String × List (String × String)) :=
  if hasWindow = false then Except.ok ("", localStorage)
  else if storageFails then Except.error "storage unavailable"
  else
    match getEntry localStorage SESSION_ID_KEY with
    | some sessionId => Except.ok (sessionId, localStorage)
    | none =>
      let sessionId := generateClientSessionId nowMs rand
      Except.ok (sessionId, setEntry localStorage SESSION_ID_KEY sessionId)

/-- The two client persistence tiers: the IndexedDB `session_contexts_store`
(keyed by `sessionId`) and localStorage. -/
structure ClientStore where
  idb : List (String × Payload)
  ls : List (String × Payload)
deriving Repr

/-- `saveSessionContextLocal(sessionId, contextData)` (session-storage.ts
lines 266-300): IndexedDB `put` keyed by `sessionId`; on any IndexedDB
failure, falls back to
`localStorage.setItem(STORAGE_KEY + "_" + sessionId, JSON.stringify(contextData))`;
a localStorage failure is only logged, so the call never throws and never
reports which tier served it. -/
def saveSessionContextLocal (idbFails lsFails : Bool) (store : ClientStore)
    (sessionId : String) (contextData : Payload) : ClientStore :=
  if idbFails then
    if lsFails then store
    else { store with ls := setEntry store.ls (STORAGE_KEY ++ "_" ++ sessionId) contextData }
  else
    { store with idb := setEntry store.idb sessionId contextData }

/-- `loadSessionContextLocal(sessionId)` (session-storage.ts lines 305-334):
IndexedDB `get` keyed by `sessionId` (a missing row resolves `null`); on an
IndexedDB failure, reads the localStorage fallback key; a localStorage
failure yields `null`.  The caller cannot tell which tier answered. -/
def loadSessionContextLocal (idbFails lsFails : Bool) (store : ClientStore)
    (sessionId : String) : Option Payload :=
  if idbFails then
    if lsFails then none
    else getEntry store.ls (STORAGE_KEY ++ "_" ++ sessionId)
  else
    getEntry store.idb sessionId

/-! ## Cross-context broadcast (src/lib/client/session-storage.ts) -/

/-- An event observable by another same-origin browser context: a
BroadcastChannel message, or a `storage` event fired in the other tabs by a
localStorage write. -/
inductive BrowserEvent where
  | channelMessage (channelName : String) (message : Payload)
  | storageEvent (key : String) (newValue : Option Payload)
deriving DecidableEq, Repr

/-- `broadcastSessionUpdate(contextKey, contextValue)` (session-storage.ts
lines 562-585): when the BroadcastChannel API is available, posts
`{type, contextKey, contextValue, timestamp}` on the channel
`quantfident_session`; otherwise writes
`JSON.stringify({contextKey, contextValue})` under a timestamped
localStorage key, which other tabs observe as a `storage` event. -/
def broadcastSessionUpdate (channelAvailable : Bool) (nowMs : Nat)
    (contextKey : String) (contextValue : JsonValue) : BrowserEvent :=
  if channelAvailable then
    BrowserEvent.channelMessage "quantfident_session"
      [("type", JsonValue.str "context_update"),
       ("contextKey", JsonValue.str contextKey),
       ("contextValue", contextValue),
       ("timestamp", JsonValue.num (Int.ofNat nowMs))]
  else
    BrowserEvent.storageEvent (STORAGE_KEY ++ "_broadcast_" ++ toString nowMs)
      (some [("contextKey", JsonValue.str contextKey),
             ("contextValue", contextValue)])

/-- `key.startsWith(prefix)`, modelled over the underlying character
sequences. -/
def strStartsWith (s pre : String) : Bool :=
  pre.data.isPrefixOf s.data

/-- What the listener registered by `onSessionStorageChange(callback)`
(session-storage.ts lines 540-557) hands to the callback when an event
reaches a subscribed context.  The function registers only a `window`
`storage` listener, so BroadcastChannel messages are never delivered to it;
a storage event whose key starts with the session prefix is parsed and
forwarded (a missing `newValue` becomes `{}`). -/
def onSessionStorageChange (event : BrowserEvent) : Option Payload :=
  match event with
  | BrowserEvent.channelMessage _ _ => none
  | BrowserEvent.storageEvent key newValue =>
    if strStartsWith key STORAGE_KEY then some (newValue.getD []) else none

/-! ## Context Synchronizer initialization (src/hooks/useSessionRecovery.ts) -/

/-- The options of `useSessionRecovery` with their defaults. -/
structure UseSessionRecoveryOptions where
  autoSaveInterval : Nat := 30000
  restoreOnMount : Bool := true
  syncWithServerOnMount : Bool := true
  initialSnapshotId : Option String := none
deriving Repr

/-- Outcome of each step of `initializeSession`: whether the IndexedDB
open rejects, whether `getOrCreateSessionId()` throws (it has no
try/catch around its localStorage access, session-storage.ts lines
252-261, so a failing localStorage propagates into the hook's try
block), the resolved session id when it does not throw, and the results
of `restoreSnapshotServer`, `getSessionContextServer` and
`loadSessionContextLocal` (each of which catches internally and resolves
`null` on failure). -/
structure InitEnv where
  dbInitFails : Bool
  sessionIdFails : Bool
  sessionId : String
  restoreResult : Option Payload
  serverContext : Option Payload
  localContext : Option Payload
deriving Repr

/-- The hook state touched by initialization. -/
structure ControllerState where
  sessionId : String
  contextData : Payload
  isLoading : Bool
  error : Option String
deriving DecidableEq, Repr

/-- Which initialization steps actually ran. -/
structure InitTrace where
  resolvedSessionId : Bool
  ranContextLoad : Bool
deriving DecidableEq, Repr

/-- `initializeSession` (useSessionRecovery.ts lines 68-118).  The body
sets loading and clears the error, then awaits `initializeSessionDB()`;
a rejection there is caught by the surrounding try/catch, which records
the thrown error's message (rendered here as a fixed string), skipping
every later step, and the `finally` clause clears the loading flag.
Next `getOrCreateSessionId()` runs inside the same try: when its
localStorage access throws, the same catch fires — the session id is not
resolved and context loading is skipped.  Otherwise the session id is
resolved and the context is loaded snapshot-first, then server, then
local cache, then empty; those three loaders resolve `null` on failure
rather than throwing.  The local cache writes inside the snapshot/server
branches never throw and are not modelled. -/
def initializeSession (opts : UseSessionRecoveryOptions) (env : InitEnv)
    (st : ControllerState) : ControllerState × InitTrace :=
  let st0 : ControllerState := { st with isLoading := true, error := none }
  if env.dbInitFails then
    ({ st0 with error := some "Failed to initialize session", isLoading := false },
     { resolvedSessionId := false, ranContextLoad := false })
  else if env.sessionIdFails then
    ({ st0 with error := some "storage unavailable", isLoading := false },
     { resolvedSessionId := false, ranContextLoad := false })
  else
    let st1 : ControllerState := { st0 with sessionId := env.sessionId }
    let trace : InitTrace := { resolvedSessionId := true, ranContextLoad := true }
    let afterLocal : ControllerState :=
      if opts.restoreOnMount then
        match env.localContext with
        | some localContext => { st1 with contextData := localContext, isLoading := false }
        | none => { st1 with contextData := [], isLoading := false }
      else { st1 with contextData := [], isLoading := false }
    let afterServer : ControllerState :=
      if opts.syncWithServerOnMount then
        match env.serverContext with
        | some serverContext => { st1 with contextData := serverContext, isLoading := false }
        | none => afterLocal
      else afterLocal
    let result : ControllerState :=
      match opts.initialSnapshotId with
      | some _ =>
        match env.restoreResult with
        | some snapshotData => { st1 with contextData := snapshotData, isLoading := false }
        | none => afterServer
      | none => afterServer
    (result, trace)

/-- The server-side effect of the hook's `restoreSnapshot` (useSessionRecovery.ts
lines 186-209): the restored payload is pushed through
`updateSessionContextServer(sessionId, restoredData)`, whose route
(`POST /api/sessions/context`) calls `SessionService.updateSessionContext`
— the same shallow-merge path as any other update. -/
def restoreSnapshotServerPush (db : DB) (sessionId : String)
    (restoredData : Payload) : DB :=
  (updateSessionContext db sessionId restoredData).1

/-! ## Shared helpers for the claim theorems -/

theorem findSession_of_mem (db : DB) (hwf : db.Wf) (s : UserSession)
    (hs : s ∈ db.sessions) : findSession db s.sessionId = some s :=
  find?_key_of_mem (fun x : UserSession => x.sessionId) db.sessions hwf.1 hs

/-- An arbitrary sequence of later context mutations, applied in order. -/
def applyUpdates (db : DB) (updates : List (String × Payload)) : DB :=
  updates.foldl (fun d u => (updateSessionContext d u.1 u.2).1) db

theorem applyUpdates_snapshots (updates : List (String × Payload)) :
    ∀ db : DB, (applyUpdates db updates).snapshots = db.snapshots := by
  induction updates with
  | nil => intro db; rfl
  | cons u rest ih =>
    intro db
    unfold applyUpdates at ih ⊢
    rw [List.foldl_cons, ih ((updateSessionContext db u.1 u.2).1),
      updateSessionContext_snapshots]

theorem fanOut_findContext_noSession (shared : Payload) (tokens : List String) :
    ∀ acc : DB × Bool, acc.1.Wf → ∀ sid, findSession acc.1 sid = none →
      findContext (tokens.foldl (fanOutStep shared) acc).1 sid =
        findContext acc.1 sid := by
  induction tokens with
  | nil => intro acc _ sid _; rfl
  | cons t rest ih =>
    intro acc hwf sid hnone
    have hwf' : (fanOutStep shared acc t).1.Wf := by
      rw [fanOutStep_fst]
      exact updateSessionContext_wf acc.1 hwf t shared
    have hsess : findSession (fanOutStep shared acc t).1 sid = none := by
      unfold findSession
      rw [fanOutStep_fst, updateSessionContext_sessions]
      exact hnone
    by_cases hts : sid = t
    · subst hts
      rw [List.foldl_cons, ih _ hwf' sid hsess]
      rw [show (fanOutStep shared acc sid).1 = acc.1 from by
        rw [fanOutStep_fst, updateSessionContext_noSession acc.1 sid shared hnone]]
    · rw [List.foldl_cons, ih _ hwf' sid hsess, fanOutStep_fst]
      exact updateSessionContext_findContext_other acc.1 hwf t sid hts shared

/-! Concrete example rows and databases used by witnesses and
counterexamples. -/

/-- Identity `U1` with one active, unexpired session `tok-1`. -/
def exampleSession : UserSession :=
  { userId := "U1", sessionId := "tok-1", isActive := true,
    lastActivityAt := 50, createdAt := 10, expiresAt := 1000 }

/-- The context of `tok-1`: `{a: 1, b: 2}`. -/
def exampleContext : SessionContext :=
  { id := 0, userId := "U1", sessionId := "tok-1",
    contextData := [("a", JsonValue.num 1), ("b", JsonValue.num 2)] }

def exampleDB : DB :=
  { sessions := [exampleSession], contexts := [exampleContext],
    snapshots := [], nextId := 1 }

/-- An active session whose absolute expiry (50) is already in the past at
the probe time 100, with `isActive` still set. -/
def expiredSession : UserSession :=
  { userId := "U1", sessionId := "tok-A", isActive := true,
    lastActivityAt := 5, createdAt := 1, expiresAt := 50 }

def expiredContext : SessionContext :=
  { id := 0, userId := "U1", sessionId := "tok-A",
    contextData := [("a", JsonValue.num 1)] }

def exampleDB2 : DB :=
  { sessions := [expiredSession], contexts := [expiredContext],
    snapshots := [], nextId := 1 }

/-- One active and one inactive session of the same identity. -/
def activeSessionB : UserSession :=
  { userId := "U1", sessionId := "tok-B", isActive := true,
    lastActivityAt := 10, createdAt := 1, expiresAt := 1000 }

def inactiveSessionC : UserSession :=
  { userId := "U1", sessionId := "tok-C", isActive := false,
    lastActivityAt := 20, createdAt := 2, expiresAt := 1000 }

def contextB : SessionContext :=
  { id := 0, userId := "U1", sessionId := "tok-B", contextData := [] }

def contextC : SessionContext :=
  { id := 1, userId := "U1", sessionId := "tok-C",
    contextData := [("x", JsonValue.num 7)] }

def exampleDB3 : DB :=
  { sessions := [activeSessionB, inactiveSessionC],
    contexts := [contextB, contextC], snapshots := [], nextId := 2 }

/-- A stored snapshot owned by `U1`. -/
def exampleSnapshot : SessionSnapshot :=
  { id := 0, userId := "U1", sessionId := some "tok-1",
    snapshotData := [("theme", JsonValue.str "light")],
    snapshotName := some "s1", createdAt := 100, expiresAt := 2000,
    isManual := true, source := "manual" }

def exampleDB5 : DB :=
  { sessions := [], contexts := [], snapshots := [exampleSnapshot], nextId := 1 }

def defaultOptions : UseSessionRecoveryOptions := {}

/-- A run whose IndexedDB open rejects. -/
def envFail : InitEnv :=
  { dbInitFails := true, sessionIdFails := false, sessionId := "client_1_a",
    restoreResult := none, serverContext := none, localContext := none }

/-- A run whose IndexedDB open succeeds but whose session-id resolution
throws (failing localStorage). -/
def envStorageFail : InitEnv :=
  { dbInitFails := false, sessionIdFails := true, sessionId := "client_1_a",
    restoreResult := none, serverContext := none, localContext := none }

/-- The hook state before initialization. -/
def initialState : ControllerState :=
  { sessionId := "", contextData := [], isLoading := true, error := none }

/-! ## Claim theorems -/

/-- C1: for every session token with an existing Context, `updateContext`
replaces the stored payload with the shallow merge of the old payload and
the partial: the call returns the merged context, the stored row becomes the
merged context, and at every key the merged payload resolves to the
partial's value when present and to the old stored value otherwise — keys
of the partial are added or overwrite, stored keys outside it are
preserved. -/
theorem C1_updateContext_shallow_merge (db : DB) (hwf : db.Wf) (sessionId : String)
    (partialData : Payload) (c : SessionContext)
    (hc : findContext db sessionId = some c) :
    (updateSessionContext db sessionId partialData).2 =
        Except.ok { c with contextData := mergeShallow c.contextData partialData }
    ∧ findContext (updateSessionContext db sessionId partialData).1 sessionId =
        some { c with contextData := mergeShallow c.contextData partialData }
    ∧ (∀ k, lookupKey (mergeShallow c.contextData partialData) k =
        ((lookupKey partialData k).or (lookupKey c.contextData k))) := by
  have hcmem := List.mem_of_find?_eq_some hc
  have hcsid : c.sessionId = sessionId := by
    have := List.find?_some hc
    simp only [beq_iff_eq] at this
    exact this
  obtain ⟨s, hsmem, hssid⟩ := hwf.2.2.2.2.2.2 c hcmem
  have hfs : findSession db sessionId = some s := by
    rw [← hcsid, ← hssid]
    exact findSession_of_mem db hwf s hsmem
  obtain ⟨h1, h2⟩ := updateSessionContext_existing db hwf sessionId partialData s hfs c hc
  exact ⟨h1, h2, fun k => lookupKey_mergeShallow c.contextData partialData k⟩

/-- C1 witness: from the stored context `{a: 1, b: 2}` of `tok-1`,
`update({b: 3, c: 4})` stores exactly `{a: 1, b: 3, c: 4}`. -/
theorem C1_witness :
    (updateSessionContext exampleDB "tok-1"
        [("b", JsonValue.num 3), ("c", JsonValue.num 4)]).2 =
      Except.ok
        { id := 0, userId := "U1", sessionId := "tok-1",
          contextData := [("a", JsonValue.num 1), ("b", JsonValue.num 3),
            ("c", JsonValue.num 4)] } :=
  (C1_updateContext_shallow_merge exampleDB (by decide) "tok-1"
    [("b", JsonValue.num 3), ("c", JsonValue.num 4)] exampleContext rfl).1

/-- C2 counterexample: in a database whose only session is active but past
its expiry at probe time 100, `listActiveSessions` returns nothing, yet
`shareAcrossSessions` still merges the shared pair into that session's
context — so the fan-out does not hit exactly the set of sessions
`listActiveSessions` would return. -/
theorem C2_counterexample :
    getUserActiveSessions exampleDB2 "U1" 100 = []
    ∧ lookupContextData
        (shareContextAcrossSessions exampleDB2 "U1" "theme"
          (JsonValue.str "dark") 100).1 "tok-A" "theme" =
        some (JsonValue.str "dark")
    ∧ lookupContextData exampleDB2 "tok-A" "theme" = none := by
  refine ⟨?_, ?_, ?_⟩
  · unfold getUserActiveSessions
    rw [show exampleDB2.sessions.filter (fun s =>
        s.userId == "U1" && s.isActive && decide (100 < s.expiresAt)) = [] from rfl]
    exact List.mergeSort_nil
  · rfl
  · rfl

/-- C2 (amended): `shareAcrossSessions(identity, key, value)` shallow-merges
the pair `{key: value, sharedAt: now}` into the Context of exactly the
identity's sessions whose active flag is set — regardless of expiry, unlike
`listActiveSessions` — and of no other session. -/
theorem C2_shareAcrossSessions_targets (db : DB) (hwf : db.Wf)
    (userId contextKey : String) (contextValue : JsonValue) (now : Nat) :
    (∀ s ∈ db.sessions, s.userId = userId → s.isActive = true →
      ((findContext (shareContextAcrossSessions db userId contextKey
          contextValue now).1 s.sessionId).map (·.contextData)) =
        some (newContextData ((findContext db s.sessionId).map (·.contextData))
          (sharedPayload contextKey contextValue now)))
    ∧ (∀ sid, (¬ ∃ s ∈ db.sessions, s.sessionId = sid ∧ s.userId = userId
          ∧ s.isActive = true) →
        findContext (shareContextAcrossSessions db userId contextKey
          contextValue now).1 sid = findContext db sid) := by
  have hsub : ((db.sessions.filter (fun s => s.userId == userId && s.isActive)).map
      (·.sessionId)).Sublist (db.sessions.map (·.sessionId)) :=
    (List.filter_sublist db.sessions).map (·.sessionId)
  have htokens_nodup : ((db.sessions.filter
      (fun s => s.userId == userId && s.isActive)).map (·.sessionId)).Nodup :=
    List.Nodup.sublist hsub hwf.1
  constructor
  · intro s hs hus his
    have hmem_f : s ∈ db.sessions.filter (fun x => x.userId == userId && x.isActive) := by
      rw [List.mem_filter]
      refine ⟨hs, ?_⟩
      rw [hus, his]
      simp
    have htok : s.sessionId ∈ (db.sessions.filter
        (fun x => x.userId == userId && x.isActive)).map (·.sessionId) :=
      List.mem_map_of_mem _ hmem_f
    have hfs : findSession db s.sessionId = some s := findSession_of_mem db hwf s hs
    exact fanOut_findContext_mem (sharedPayload contextKey contextValue now)
      ((db.sessions.filter (fun x => x.userId == userId && x.isActive)).map (·.sessionId))
      (db, true) hwf htokens_nodup s.sessionId htok s hfs
  · intro sid hno
    have hnot : sid ∉ (db.sessions.filter
        (fun x => x.userId == userId && x.isActive)).map (·.sessionId) := by
      intro hmem
      rcases List.mem_map.mp hmem with ⟨s, hsf, hsid⟩
      rcases List.mem_filter.mp hsf with ⟨hsmem, hpred⟩
      rw [Bool.and_eq_true, beq_iff_eq] at hpred
      exact hno ⟨s, hsmem, hsid, hpred.1, hpred.2⟩
    exact fanOut_findContext_notMem (sharedPayload contextKey contextValue now)
      ((db.sessions.filter (fun x => x.userId == userId && x.isActive)).map (·.sessionId))
      (db, true) hwf sid hnot

/-- C2 witness: with one active (`tok-B`) and one inactive (`tok-C`) session
of `U1`, sharing `theme = dark` updates `tok-B`'s context and leaves
`tok-C`'s untouched. -/
theorem C2_witness :
    ((findContext (shareContextAcrossSessions exampleDB3 "U1" "theme"
        (JsonValue.str "dark") 100).1 "tok-B").map (·.contextData)) =
      some (newContextData ((findContext exampleDB3 "tok-B").map (·.contextData))
        (sharedPayload "theme" (JsonValue.str "dark") 100))
    ∧ findContext (shareContextAcrossSessions exampleDB3 "U1" "theme"
        (JsonValue.str "dark") 100).1 "tok-C" = findContext exampleDB3 "tok-C" :=
  ⟨(C2_shareAcrossSessions_targets exampleDB3 (by decide) "U1" "theme"
      (JsonValue.str "dark") 100).1 activeSessionB (by decide) rfl rfl,
   (C2_shareAcrossSessions_targets exampleDB3 (by decide) "U1" "theme"
      (JsonValue.str "dark") 100).2 "tok-C" (by decide)⟩

/-- C3: `createSnapshot(identity, token, payload)` followed by
`restoreSnapshot(id, identity)` returns exactly the stored payload (with
its name and creation time), even after an arbitrary sequence of later
context updates between the two calls: context mutation never retroactively
changes the stored snapshot payload. -/
theorem C3_snapshot_roundtrip (db : DB) (hwf : db.Wf) (userId : String)
    (sessionId : Option String) (payload : Payload) (name : Option String)
    (now : Nat) (updates : List (String × Payload)) :
    (restoreFromSnapshot
        (applyUpdates (createSessionSnapshot db userId sessionId payload name now).1
          updates)
        (createSessionSnapshot db userId sessionId payload name now).2.id userId).2 =
      Except.ok { snapshotData := payload, createdAt := now, snapshotName := name } := by
  have hsnaps : (applyUpdates
      (createSessionSnapshot db userId sessionId payload name now).1 updates).snapshots =
      db.snapshots ++ [(createSessionSnapshot db userId sessionId payload name now).2] := by
    rw [applyUpdates_snapshots]
    rfl
  unfold restoreFromSnapshot
  rw [hsnaps, List.find?_append]
  have hnone : (db.snapshots.find? (fun x =>
      x.id == (createSessionSnapshot db userId sessionId payload name now).2.id)) =
      none := by
    rw [List.find?_eq_none]
    intro x hx hbeq
    simp only [beq_iff_eq] at hbeq
    have hid : (createSessionSnapshot db userId sessionId payload name now).2.id =
        db.nextId := rfl
    rw [hid] at hbeq
    have hlt := hwf.2.2.2.2.2.1 x hx
    omega
  rw [hnone]
  simp [List.find?_cons, createSessionSnapshot, Option.none_or]

/-- C3 witness: snapshot `{theme: light}` taken for `U1`, then the live
context of `tok-1` is updated with `{font: large}`; restoring the snapshot
still returns exactly `{theme: light}`. -/
theorem C3_witness :
    (restoreFromSnapshot
        (applyUpdates (createSessionSnapshot exampleDB "U1" (some "tok-1")
            [("theme", JsonValue.str "light")] (some "before-font") 500).1
          [("tok-1", [("font", JsonValue.str "large")])])
        (createSessionSnapshot exampleDB "U1" (some "tok-1")
            [("theme", JsonValue.str "light")] (some "before-font") 500).2.id "U1").2 =
      Except.ok
        { snapshotData := [("theme", JsonValue.str "light")],
          createdAt := 500, snapshotName := some "before-font" } :=
  C3_snapshot_roundtrip exampleDB (by decide) "U1" (some "tok-1")
    [("theme", JsonValue.str "light")] (some "before-font") 500
    [("tok-1", [("font", JsonValue.str "large")])]

/-- C4: `restoreSnapshot(id, identity)` performs no write (the database is
returned unchanged); it succeeds with the snapshot's payload, creation time
and name exactly when a stored snapshot has that id and is owned by the
caller, and fails with the not-found/unauthorized error otherwise. -/
theorem C4_restore_ownership (db : DB) (hwf : db.Wf) (snapshotId : Nat)
    (userId : String) :
    (restoreFromSnapshot db snapshotId userId).1 = db
    ∧ (∀ snap ∈ db.snapshots, snap.id = snapshotId → snap.userId = userId →
        (restoreFromSnapshot db snapshotId userId).2 =
          Except.ok
            { snapshotData := snap.snapshotData,
              createdAt := snap.createdAt, snapshotName := snap.snapshotName })
    ∧ ((∀ snap ∈ db.snapshots, ¬(snap.id = snapshotId ∧ snap.userId = userId)) →
        (restoreFromSnapshot db snapshotId userId).2 =
          Except.error "Snapshot not found or unauthorized") := by
  refine ⟨?_, ?_, ?_⟩
  · unfold restoreFromSnapshot
    cases h : db.snapshots.find? (fun s => s.id == snapshotId) with
    | none => rfl
    | some snap =>
      by_cases hu : (snap.userId == userId) = true
      · simp [hu]
      · simp [eqFalseOfNotTrue hu]
  · intro snap hmem hid huid
    unfold restoreFromSnapshot
    have hfind : db.snapshots.find? (fun s => s.id == snapshotId) = some snap := by
      have hf := find?_key_of_mem (fun x : SessionSnapshot => x.id) db.snapshots
        hwf.2.2.2.2.1 hmem
      dsimp only at hf
      rw [hid] at hf
      exact hf
    rw [hfind]
    simp [huid]
  · intro hno
    unfold restoreFromSnapshot
    cases h : db.snapshots.find? (fun s => s.id == snapshotId) with
    | none => rfl
    | some snap =>
      have hmem := List.mem_of_find?_eq_some h
      have hid : snap.id = snapshotId := by
        have := List.find?_some h
        simp only [beq_iff_eq] at this
        exact this
      have huid : (snap.userId == userId) = false := by
        cases hb : snap.userId == userId
        · rfl
        · exact absurd ⟨hid, eq_of_beq hb⟩ (hno snap hmem)
      simp [huid]

/-- C4 witness: the stored snapshot of `U1` restores for `U1` with its
payload, and fails for `U2`, with the database unchanged. -/
theorem C4_witness :
    (restoreFromSnapshot exampleDB5 0 "U1").1 = exampleDB5
    ∧ (restoreFromSnapshot exampleDB5 0 "U1").2 =
        Except.ok
          { snapshotData := [("theme", JsonValue.str "light")],
            createdAt := 100, snapshotName := some "s1" }
    ∧ (restoreFromSnapshot exampleDB5 0 "U2").2 =
        Except.error "Snapshot not found or unauthorized" :=
  ⟨(C4_restore_ownership exampleDB5 (by decide) 0 "U1").1,
   (C4_restore_ownership exampleDB5 (by decide) 0 "U1").2.1 exampleSnapshot
     (by decide) rfl rfl,
   (C4_restore_ownership exampleDB5 (by decide) 0 "U2").2.2 (by decide)⟩

/-- C5: the fan-out arms are independent, not an all-or-nothing transaction:
when one listed token has no session row, its arm fails (the overall
fan-out reports the failure and that token's context is untouched) while
the update of every other listed token with a session is still applied. -/
theorem C5_fanOut_independent (db : DB) (hwf : db.Wf) (shared : Payload)
    (tokens : List String) (hnd : tokens.Nodup)
    (tBad : String) (hBadMem : tBad ∈ tokens)
    (hBad : findSession db tBad = none)
    (tGood : String) (hGoodMem : tGood ∈ tokens) (s : UserSession)
    (hGood : findSession db tGood = some s) :
    ((findContext (fanOut db tokens shared).1 tGood).map (·.contextData)) =
      some (newContextData ((findContext db tGood).map (·.contextData)) shared)
    ∧ (fanOut db tokens shared).2 = false
    ∧ findContext (fanOut db tokens shared).1 tBad = findContext db tBad := by
  refine ⟨?_, ?_, ?_⟩
  · exact fanOut_findContext_mem shared tokens (db, true) hwf hnd tGood hGoodMem s hGood
  · exact fanOut_flag_of_bad shared tokens (db, true) ⟨tBad, hBadMem, hBad⟩
  · exact fanOut_findContext_noSession shared tokens (db, true) hwf tBad hBad

/-- C5 witness: fanning out over `[tok-missing, tok-1]` on a database where
only `tok-1` has a session row still applies the update to `tok-1`. -/
theorem C5_witness :
    ((findContext (fanOut exampleDB ["tok-missing", "tok-1"]
        [("theme", JsonValue.str "dark")]).1 "tok-1").map (·.contextData)) =
      some (newContextData ((findContext exampleDB "tok-1").map (·.contextData))
        [("theme", JsonValue.str "dark")])
    ∧ (fanOut exampleDB ["tok-missing", "tok-1"]
        [("theme", JsonValue.str "dark")]).2 = false
    ∧ findContext (fanOut exampleDB ["tok-missing", "tok-1"]
        [("theme", JsonValue.str "dark")]).1 "tok-missing" =
        findContext exampleDB "tok-missing" :=
  C5_fanOut_independent exampleDB (by decide) [("theme", JsonValue.str "dark")]
    ["tok-missing", "tok-1"] (by decide) "tok-missing" (by decide) rfl
    "tok-1" (by decide) exampleSession rfl

set_option maxRecDepth 8192 in
/-- C6: evaluation of the broadcast pair at the failing input
`broadcast("theme", "dark")`.  On the primary path (BroadcastChannel
available) the posted message is never handed to the storage-event
subscriber, so the other context's callback is not invoked at all; on the
localStorage fallback path the callback receives the two-entry envelope
`{contextKey: "theme", contextValue: "dark"}`, which differs from the
single-entry map `{theme: "dark"}` that the subscriber is specified to
receive. -/
theorem C6_broadcast_not_delivered :
    onSessionStorageChange (broadcastSessionUpdate true 1000 "theme"
        (JsonValue.str "dark")) = none
    ∧ onSessionStorageChange (broadcastSessionUpdate false 1000 "theme"
        (JsonValue.str "dark")) =
      some [("contextKey", JsonValue.str "theme"),
        ("contextValue", JsonValue.str "dark")]
    ∧ [("contextKey", JsonValue.str "theme"),
        ("contextValue", JsonValue.str "dark")] ≠
      ([("theme", JsonValue.str "dark")] : Payload) := by
  refine ⟨rfl, ?_, by decide⟩
  have hpre : strStartsWith (STORAGE_KEY ++ "_broadcast_" ++ toString 1000)
      STORAGE_KEY = true := by decide
  show (if strStartsWith (STORAGE_KEY ++ "_broadcast_" ++ toString 1000)
        STORAGE_KEY = true
      then some ((some [("contextKey", JsonValue.str "theme"),
        ("contextValue", JsonValue.str "dark")]).getD [])
      else none) =
    some [("contextKey", JsonValue.str "theme"),
      ("contextValue", JsonValue.str "dark")]
  rw [hpre]
  rfl

/-- C7 counterexample: a client-tier storage failure does interrupt the
remaining initialization steps.  When the storage open step fails, and
likewise when the session-id resolution step throws (failing
localStorage, with the IndexedDB open succeeding), the run still clears
the loading flag and exposes the error, but the remaining steps are
skipped — session-id resolution and context loading do not "still run"
as the claim states. -/
theorem C7_counterexample :
    (initializeSession defaultOptions envFail initialState).2.resolvedSessionId = false
    ∧ (initializeSession defaultOptions envFail initialState).2.ranContextLoad = false
    ∧ (initializeSession defaultOptions envFail initialState).1.isLoading = false
    ∧ (initializeSession defaultOptions envFail initialState).1.error =
        some "Failed to initialize session"
    ∧ (initializeSession defaultOptions envStorageFail
        initialState).2.resolvedSessionId = false
    ∧ (initializeSession defaultOptions envStorageFail
        initialState).2.ranContextLoad = false
    ∧ (initializeSession defaultOptions envStorageFail initialState).1.isLoading = false
    ∧ (initializeSession defaultOptions envStorageFail initialState).1.error =
        some "storage unavailable" :=
  ⟨rfl, rfl, rfl, rfl, rfl, rfl, rfl, rfl⟩

/-- C7 (amended): initialization always completes with the loading flag
cleared and the controller usable.  A client-tier failure before the
loading chain — the storage open rejecting, or session-id resolution
throwing on a failing localStorage — is caught by the top-level handler,
which exposes the error and leaves the context as it was (empty at
mount), but it aborts the remaining steps: session-id resolution and/or
context loading do not run.  Only when both client-tier steps succeed is
the session id resolved and the context-loading chain run (its server
fetch and snapshot restore steps swallow their own failures and fall
through to the next source). -/
theorem C7_init_reaches_ready (opts : UseSessionRecoveryOptions) (env : InitEnv)
    (st : ControllerState) :
    ((initializeSession opts env st).1.isLoading = false)
    ∧ (env.dbInitFails = true →
        ((initializeSession opts env st).1.error = some "Failed to initialize session"
        ∧ (initializeSession opts env st).1.contextData = st.contextData
        ∧ (initializeSession opts env st).2.resolvedSessionId = false
        ∧ (initializeSession opts env st).2.ranContextLoad = false))
    ∧ (env.dbInitFails = false → env.sessionIdFails = true →
        ((initializeSession opts env st).1.error = some "storage unavailable"
        ∧ (initializeSession opts env st).1.contextData = st.contextData
        ∧ (initializeSession opts env st).2.resolvedSessionId = false
        ∧ (initializeSession opts env st).2.ranContextLoad = false))
    ∧ (env.dbInitFails = false → env.sessionIdFails = false →
        ((initializeSession opts env st).2.resolvedSessionId = true
        ∧ (initializeSession opts env st).2.ranContextLoad = true
        ∧ (initializeSession opts env st).1.sessionId = env.sessionId)) := by
  have hload : (initializeSession opts env st).1.isLoading = false := by
    cases hdb : env.dbInitFails <;>
      cases hsidf : env.sessionIdFails <;>
      cases hsnap : opts.initialSnapshotId <;>
      cases hres : env.restoreResult <;>
      cases hsync : opts.syncWithServerOnMount <;>
      cases hsc : env.serverContext <;>
      cases hrom : opts.restoreOnMount <;>
      cases hlc : env.localContext <;>
      simp [initializeSession, hdb, hsidf, hsnap, hres, hsync, hsc, hrom, hlc]
  refine ⟨hload, ?_, ?_, ?_⟩
  · intro h
    refine ⟨?_, ?_, ?_, ?_⟩ <;> simp [initializeSession, h]
  · intro h1 h2
    refine ⟨?_, ?_, ?_, ?_⟩ <;> simp [initializeSession, h1, h2]
  · intro h1 h2
    refine ⟨?_, ?_, ?_⟩ <;>
      cases hsnap : opts.initialSnapshotId <;>
      cases hres : env.restoreResult <;>
      cases hsync : opts.syncWithServerOnMount <;>
      cases hsc : env.serverContext <;>
      cases hrom : opts.restoreOnMount <;>
      cases hlc : env.localContext <;>
      simp [initializeSession, h1, h2, hsnap, hres, hsync, hsc, hrom, hlc]

/-- C7 witness: a failing storage open ends with loading cleared and the
steps marked as skipped; a throwing session-id resolution likewise skips
context loading; when both client-tier steps succeed, the session id is
resolved. -/
theorem C7_witness :
    (initializeSession defaultOptions envFail initialState).1.isLoading = false
    ∧ (initializeSession defaultOptions envFail initialState).2.resolvedSessionId = false
    ∧ (initializeSession defaultOptions envStorageFail
        initialState).2.ranContextLoad = false
    ∧ (initializeSession defaultOptions
        { envStorageFail with sessionIdFails := false }
        initialState).2.resolvedSessionId = true :=
  ⟨(C7_init_reaches_ready defaultOptions envFail initialState).1,
   ((C7_init_reaches_ready defaultOptions envFail initialState).2.1 rfl).2.2.1,
   ((C7_init_reaches_ready defaultOptions envStorageFail
      initialState).2.2.1 rfl rfl).2.2.2,
   ((C7_init_reaches_ready defaultOptions
      { envStorageFail with sessionIdFails := false } initialState).2.2.2 rfl rfl).1⟩

/-- C8 counterexample: when the backing client storage throws, the call
propagates the failure instead of returning a fresh ephemeral identifier
non-fatally. -/
theorem C8_counterexample :
    getOrCreateSessionId true true [] 7 "abc" =
      Except.error "storage unavailable" := rfl

theorem getOrCreateSessionId_eq (ls : List (String × String)) (nowMs : Nat)
    (rand : String) :
    getOrCreateSessionId true false ls nowMs rand =
      (match getEntry ls SESSION_ID_KEY with
      | some sessionId => Except.ok (sessionId, ls)
      | none => Except.ok (generateClientSessionId nowMs rand,
          setEntry ls SESSION_ID_KEY (generateClientSessionId nowMs rand))) := rfl

/-- C8 (amended): with working storage the identifier is stable — once a
call has returned `sessionId` with store `ls'`, every later call returns
the same identifier and leaves the store unchanged, whatever the clock or
randomness, with no network involved; but when the backing client storage
throws, the call propagates the error instead of returning a fresh
ephemeral identifier. -/
theorem C8_sessionId_stable (ls : List (String × String)) (nowMs : Nat)
    (rand : String) (sessionId : String) (ls' : List (String × String))
    (h : getOrCreateSessionId true false ls nowMs rand =
      Except.ok (sessionId, ls')) :
    (∀ nowMs' rand', getOrCreateSessionId true false ls' nowMs' rand' =
        Except.ok (sessionId, ls'))
    ∧ (∀ lsAny nowA randA, getOrCreateSessionId true true lsAny nowA randA =
        Except.error "storage unavailable") := by
  constructor
  · intro nowMs' rand'
    rw [getOrCreateSessionId_eq] at h
    rw [getOrCreateSessionId_eq]
    cases hg : getEntry ls SESSION_ID_KEY with
    | some sid =>
      rw [hg] at h
      simp only [Except.ok.injEq, Prod.mk.injEq] at h
      obtain ⟨h1, h2⟩ := h
      subst h1
      subst h2
      rw [hg]
    | none =>
      rw [hg] at h
      simp only [Except.ok.injEq, Prod.mk.injEq] at h
      obtain ⟨h1, h2⟩ := h
      subst h1
      subst h2
      rw [getEntry_setEntry_self]
  · intro lsAny nowA randA
    rfl

/-- C8 witness: after the id `client_5_abc` is created and stored, a later
call with a different clock and randomness returns the same id; a throwing
storage propagates the error. -/
theorem C8_witness :
    getOrCreateSessionId true false [(SESSION_ID_KEY, "client_5_abc")] 99 "zzz" =
      Except.ok ("client_5_abc", [(SESSION_ID_KEY, "client_5_abc")])
    ∧ getOrCreateSessionId true true [] 0 "q" =
      Except.error "storage unavailable" :=
  ⟨(C8_sessionId_stable [] 5 "abc" "client_5_abc"
      [(SESSION_ID_KEY, "client_5_abc")] rfl).1 99 "zzz",
   (C8_sessionId_stable [] 5 "abc" "client_5_abc"
      [(SESSION_ID_KEY, "client_5_abc")] rfl).2 [] 0 "q"⟩

/-- C9: with the primary tier failing on every call (and the fallback tier
working), `save(k, d)` followed by `load(k)` still returns `d` via the
fallback tier; both calls return plain values — no error escapes and the
result does not reveal which tier served it. -/
theorem C9_fallback_roundtrip (store : ClientStore) (sessionId : String)
    (data : Payload) :
    loadSessionContextLocal true false
      (saveSessionContextLocal true false store sessionId data) sessionId =
      some data := by
  unfold saveSessionContextLocal loadSessionContextLocal
  simp [getEntry_setEntry_self]

/-- C9 witness: the round trip through the fallback tier at a concrete
store, key and payload. -/
theorem C9_witness :
    loadSessionContextLocal true false
      (saveSessionContextLocal true false { idb := [], ls := [] } "tok-1"
        [("a", JsonValue.num 1)]) "tok-1" = some [("a", JsonValue.num 1)] :=
  C9_fallback_roundtrip { idb := [], ls := [] } "tok-1" [("a", JsonValue.num 1)]

/-- C10: no public context-mutating operation removes an existing top-level
key of a stored server Context: under `updateContext`, under the
`shareAcrossSessions` fan-out, and under the synchronizer's snapshot
restore — whose server push goes through the same shallow merge — every
key present before the operation is still present afterwards. -/
theorem C10_keys_monotone (db : DB) (hwf : db.Wf) :
    (∀ sid p t k, (lookupContextData db t k).isSome = true →
      (lookupContextData (updateSessionContext db sid p).1 t k).isSome = true)
    ∧ (∀ userId contextKey contextValue now t k,
        (lookupContextData db t k).isSome = true →
        (lookupContextData (shareContextAcrossSessions db userId contextKey
          contextValue now).1 t k).isSome = true)
    ∧ (∀ sid restored t k, (lookupContextData db t k).isSome = true →
        (lookupContextData (restoreSnapshotServerPush db sid restored) t k).isSome
          = true) := by
  refine ⟨?_, ?_, ?_⟩
  · intro sid p t k h
    exact updateSessionContext_presence db hwf sid p t k h
  · intro userId contextKey contextValue now t k h
    exact fanOut_presence (sharedPayload contextKey contextValue now)
      ((db.sessions.filter (fun s => s.userId == userId && s.isActive)).map
        (·.sessionId))
      (db, true) hwf t k h
  · intro sid restored t k h
    exact updateSessionContext_presence db hwf sid restored t k h

/-- C10 witness: the key `a` of `tok-1`'s context survives a direct update
and a fan-out at concrete inputs. -/
theorem C10_witness :
    (lookupContextData exampleDB "tok-1" "a").isSome = true
    ∧ (lookupContextData (updateSessionContext exampleDB "tok-1"
        [("b", JsonValue.num 9)]).1 "tok-1" "a").isSome = true
    ∧ (lookupContextData (shareContextAcrossSessions exampleDB "U1" "theme"
        (JsonValue.str "dark") 100).1 "tok-1" "a").isSome = true :=
  ⟨by decide,
   (C10_keys_monotone exampleDB (by decide)).1 "tok-1" [("b", JsonValue.num 9)]
     "tok-1" "a" (by decide),
   (C10_keys_monotone exampleDB (by decide)).2.1 "U1" "theme"
     (JsonValue.str "dark") 100 "tok-1" "a" (by decide)⟩

end Quantfident
